import Mathlib

/-!
Verification of the animation core of the Sukhoi3d scroll-driven 3D page
(src/main.js), as a shallow embedding in Lean 4.

Numbers are modelled as exact rationals (ℚ) where the code performs plain
arithmetic.  Host math primitives that are transcendental (Math.sin, Math.cos,
Math.PI, Math.hypot) are abstracted as a `MathEnv` parameter.  For the
division-by-zero behaviour of the scroll handler, a separate `JSNum` type
mirrors the IEEE-754 / JavaScript special values (NaN, ±Infinity) together
with the JavaScript comparison semantics (any comparison with NaN is false).
-/

namespace Sukhoi3d

/-- A 3-component vector of exact rationals, mirroring THREE.Vector3. -/
structure Vec3 where
  x : ℚ
  y : ℚ
  z : ℚ
deriving DecidableEq, Repr

/-- THREE.Vector3.lerpVectors(a, b, t): componentwise a + (b - a) * t. -/
def lerpVec (a b : Vec3) (t : ℚ) : Vec3 :=
  ⟨a.x + (b.x - a.x) * t, a.y + (b.y - a.y) * t, a.z + (b.z - a.z) * t⟩

/-- THREE.Vector3.lerp(this, v, t): this + (v - this) * t (same formula,
applied to the receiver). -/
def lerpToward (cur v : Vec3) (t : ℚ) : Vec3 := lerpVec cur v t

/-- A configured keyframe: aircraft position and rotation (Euler, radians). -/
structure Keyframe where
  position : Vec3
  rotation : Vec3
deriving DecidableEq, Repr

/-- CONFIG.aircraftPositions from src/main.js lines 33-54: the 7 section
keyframes, in order. -/
def aircraftPositions : List Keyframe :=
  [ ⟨⟨10, 0, 0⟩, ⟨157/100, 0, 0⟩⟩,
    ⟨⟨-2, 0, 3⟩, ⟨6/10, 314/100, -1/10⟩⟩,
    ⟨⟨-2, 0, 0⟩, ⟨0, 15/10, -1/10⟩⟩,
    ⟨⟨0, 0, 8⟩, ⟨3/10, 26/10, -15/100⟩⟩,
    ⟨⟨0, -3, 0⟩, ⟨-15/10, 4/10, 2/10⟩⟩,
    ⟨⟨1, -1, 4⟩, ⟨7/10, -6/10, -1/10⟩⟩,
    ⟨⟨0, -2, 0⟩, ⟨5/10, 29/10, -5/10⟩⟩ ]

/-- CONFIG.fixedCamera.fov (src/main.js line 13). -/
def fixedCameraFov : ℚ := 35

/-- Keyframe lookup by index (in-range for every index the scroll handler
produces on progress values in [0,1]). -/
def kf (i : ℕ) : Keyframe := aircraftPositions.getD i ⟨⟨0, 0, 0⟩, ⟨0, 0, 0⟩⟩

/-- Number of keyframes: `CONFIG.aircraftPositions.length` (the code's
`total`). -/
def total : ℕ := aircraftPositions.length

/-- The scroll mapper's section index: `Math.floor(scrollProgress * (total - 1))`
(src/main.js line 460), with `total = 7`. -/
def sectionIndex (p : ℚ) : ℤ := ⌊p * 6⌋

/-- The scroll mapper's blend fraction: `secProg - currentSection`
(src/main.js line 461). -/
def blend (p : ℚ) : ℚ := p * 6 - sectionIndex p

/-- The cubic ease from src/main.js line 462:
`t => t < 0.5 ? 4*t*t*t : 1 - Math.pow(-2*t+2, 3)/2`. -/
def ease (t : ℚ) : ℚ :=
  if t < 1/2 then 4 * t * t * t else 1 - (-2 * t + 2) ^ 3 / 2

/-- The pose targeted by the scroll handler for a given progress value:
the branch at src/main.js lines 473-483.  If `currentSection < total - 1`
the two adjacent keyframes are interpolated at the eased blend; otherwise the
last keyframe is copied verbatim. -/
def targetPose (p : ℚ) : Keyframe :=
  let s : ℤ := sectionIndex p
  let b : ℚ := blend p
  if s < 6 then
    let c := kf s.toNat
    let n := kf (s.toNat + 1)
    let e := ease b
    ⟨lerpVec c.position n.position e, lerpVec c.rotation n.rotation e⟩
  else
    kf 6

end Sukhoi3d

namespace Sukhoi3d

/-- C2 helper: for p in [0,1), the floor of 6p is between 0 and 5. -/
theorem sectionIndex_nonneg {p : ℚ} (h0 : 0 ≤ p) : 0 ≤ sectionIndex p := by
  unfold sectionIndex
  exact Int.floor_nonneg.mpr (by nlinarith)

theorem sectionIndex_le_five {p : ℚ} (h1 : p < 1) : sectionIndex p ≤ 5 := by
  have : sectionIndex p < 6 := by
    unfold sectionIndex
    exact Int.floor_lt.mpr (by push_cast; nlinarith)
  omega

theorem sectionIndex_eq_six {p : ℚ} (h1 : p ≤ 1)
    (h : sectionIndex p = 6) : p = 1 := by
  unfold sectionIndex at h
  have h6 : (6 : ℚ) ≤ p * 6 := by
    have := Int.floor_le (p * 6)
    rw [h] at this
    exact_mod_cast this
  nlinarith

end Sukhoi3d

namespace Sukhoi3d

/-- C4 helper: the ease curve is monotone on [0,1]. -/
theorem ease_mono {s t : ℚ} (h0 : 0 ≤ s) (hst : s ≤ t) (h1 : t ≤ 1) :
    ease s ≤ ease t := by
  unfold ease
  rcases lt_or_le s (1/2) with hs | hs <;> rcases lt_or_le t (1/2) with ht | ht
  · simp only [if_pos hs, if_pos ht]
    nlinarith [pow_le_pow_left₀ h0 hst 3]
  · simp only [if_pos hs, if_neg (not_lt.mpr ht)]
    nlinarith [pow_le_pow_left₀ h0 hs.le 3,
      pow_le_pow_left₀ (by linarith : (0:ℚ) ≤ -2*t + 2) (by linarith : -2*t + 2 ≤ 1) 3]
  · exfalso; linarith
  · simp only [if_neg (not_lt.mpr hs), if_neg (not_lt.mpr ht)]
    nlinarith [pow_le_pow_left₀ (by linarith : (0:ℚ) ≤ -2*t + 2)
      (by linarith : -2*t + 2 ≤ -2*s + 2) 3]

/-- C4 helper: ease fixes the endpoints. -/
theorem ease_zero : ease 0 = 0 := by norm_num [ease]

theorem ease_one : ease 1 = 1 := by norm_num [ease]

/-- C4: the ease function `t < 0.5 ? 4t³ : 1 - (-2t+2)³/2` of src/main.js
line 462 satisfies ease(0) = 0 and ease(1) = 1 and is monotone non-decreasing
on [0,1]. -/
theorem claim_C4 :
    ease 0 = 0 ∧ ease 1 = 1 ∧
      ∀ s t : ℚ, 0 ≤ s → s ≤ t → t ≤ 1 → ease s ≤ ease t :=
  ⟨ease_zero, ease_one, fun _ _ h0 hst h1 => ease_mono h0 hst h1⟩

/-- C4 witness: the monotonicity part instantiated at s = 1/4, t = 3/4. -/
theorem claim_C4_witness :
    ease 0 = 0 ∧ ease 1 = 1 ∧ ease (1/4) ≤ ease (3/4) :=
  ⟨claim_C4.1, claim_C4.2.1,
    claim_C4.2.2 (1/4) (3/4) (by norm_num) (by norm_num) (by norm_num)⟩

/-- C2 helper: the blend fraction is the fractional part of p * 6. -/
theorem blend_eq_fract (p : ℚ) : blend p = Int.fract (p * 6) := rfl

/-- C2: for every progress p in [0,1] the scroll mapper computes
sectionIndex = ⌊p·(N-1)⌋ and blend = p·(N-1) - sectionIndex deterministically,
blend lies in [0,1), sectionIndex lies in [0,5] whenever p < 1, and only at
p = 1 does sectionIndex reach 6, where the interpolation branch is skipped
(the last keyframe is copied). -/
theorem claim_C2 (p : ℚ) (h0 : 0 ≤ p) (h1 : p ≤ 1) :
    sectionIndex p = ⌊p * (7 - 1)⌋ ∧
    blend p = p * (7 - 1) - sectionIndex p ∧
    (∀ q : ℚ, q = p → sectionIndex q = sectionIndex p ∧ blend q = blend p) ∧
    0 ≤ blend p ∧ blend p < 1 ∧
    0 ≤ sectionIndex p ∧
    (p < 1 → sectionIndex p ≤ 5) ∧
    (sectionIndex p = 6 → p = 1) ∧
    (p = 1 → sectionIndex p = 6 ∧ targetPose p = kf 6) := by
  refine ⟨by norm_num [sectionIndex], by norm_num [blend, sectionIndex],
    fun q hq => by rw [hq]; exact ⟨rfl, rfl⟩, ?_, ?_, sectionIndex_nonneg h0, sectionIndex_le_five,
    sectionIndex_eq_six h1, ?_⟩
  · rw [blend_eq_fract]; exact Int.fract_nonneg _
  · rw [blend_eq_fract]; exact Int.fract_lt_one _
  · rintro rfl
    refine ⟨by norm_num [sectionIndex], ?_⟩
    norm_num [targetPose, sectionIndex, blend, ease, kf, aircraftPositions, lerpVec]

/-- C2 witness: the claim instantiated at p = 1/2 (and hence sectionIndex 3,
matching spec Scenario 2). -/
theorem claim_C2_witness :
    ((0:ℚ) ≤ 1/2 ∧ (1/2:ℚ) ≤ 1) ∧
    (sectionIndex (1/2) = ⌊(1/2 : ℚ) * (7 - 1)⌋ ∧
      blend (1/2) = (1/2 : ℚ) * (7 - 1) - sectionIndex (1/2) ∧
      (∀ q : ℚ, q = 1/2 → sectionIndex q = sectionIndex (1/2) ∧ blend q = blend (1/2)) ∧
      0 ≤ blend (1/2) ∧ blend (1/2) < 1 ∧
      0 ≤ sectionIndex (1/2) ∧
      ((1/2 : ℚ) < 1 → sectionIndex (1/2) ≤ 5) ∧
      (sectionIndex (1/2) = 6 → (1/2 : ℚ) = 1) ∧
      ((1/2 : ℚ) = 1 → sectionIndex (1/2) = 6 ∧ targetPose (1/2) = kf 6)) :=
  ⟨⟨by norm_num, by norm_num⟩, claim_C2 (1/2) (by norm_num) (by norm_num)⟩

end Sukhoi3d

namespace Sukhoi3d

/-- C1: for every progress p in [0,1]: when sectionIndex < 6 the target pose
is the componentwise linear interpolation between keyframes[sectionIndex] and
keyframes[sectionIndex+1] at the eased blend; when sectionIndex = 6 (which
forces p = 1) the target is keyframe 6 exactly, with no easing or blending;
consequently at p = 0 the target is keyframe 0 exactly. -/
theorem claim_C1 (p : ℚ) (h0 : 0 ≤ p) (h1 : p ≤ 1) :
    (sectionIndex p < 6 →
      targetPose p =
        ⟨lerpVec (kf (sectionIndex p).toNat).position
            (kf ((sectionIndex p).toNat + 1)).position (ease (blend p)),
         lerpVec (kf (sectionIndex p).toNat).rotation
            (kf ((sectionIndex p).toNat + 1)).rotation (ease (blend p))⟩) ∧
    (sectionIndex p = 6 → p = 1 ∧ targetPose p = kf 6) ∧
    (p = 1 → targetPose p = kf 6) ∧
    (p = 0 → targetPose p = kf 0) := by
  have hlast : p = 1 → targetPose p = kf 6 := by
    rintro rfl
    norm_num [targetPose, sectionIndex, blend, ease, kf, aircraftPositions, lerpVec]
  refine ⟨fun h => by rw [targetPose, if_pos h], fun h => ?_, hlast, ?_⟩
  · have hp1 : p = 1 := sectionIndex_eq_six h1 h
    exact ⟨hp1, hlast hp1⟩
  · rintro rfl
    norm_num [targetPose, sectionIndex, blend, ease, kf, aircraftPositions, lerpVec]

/-- C1 witness: the claim instantiated at p = 1 (spec Scenario 3). -/
theorem claim_C1_witness :
    ((0:ℚ) ≤ 1 ∧ (1:ℚ) ≤ 1) ∧
    ((sectionIndex 1 < 6 →
      targetPose 1 =
        ⟨lerpVec (kf (sectionIndex 1).toNat).position
            (kf ((sectionIndex 1).toNat + 1)).position (ease (blend 1)),
         lerpVec (kf (sectionIndex 1).toNat).rotation
            (kf ((sectionIndex 1).toNat + 1)).rotation (ease (blend 1))⟩) ∧
     (sectionIndex 1 = 6 → (1:ℚ) = 1 ∧ targetPose 1 = kf 6) ∧
     ((1:ℚ) = 1 → targetPose 1 = kf 6) ∧
     ((1:ℚ) = 0 → targetPose 1 = kf 0)) :=
  ⟨⟨by norm_num, by norm_num⟩, claim_C1 1 (by norm_num) (by norm_num)⟩

end Sukhoi3d

namespace Sukhoi3d

/-- Host math primitives (Math.sin, Math.cos, Math.PI, Math.hypot) abstracted
as an environment; the code treats them as black boxes. -/
structure MathEnv where
  sin : ℚ → ℚ
  cos : ℚ → ℚ
  pi : ℚ
  hypot : ℚ → ℚ → ℚ

/-- The live aircraft transform and camera field of view mutated by the
render loop. -/
structure Pose where
  position : Vec3
  rotation : Vec3
  fov : ℚ
deriving DecidableEq, Repr

/-- CONFIG.fixedCamera.position (src/main.js line 11). -/
def fixedCameraPosition : Vec3 := ⟨0, 2, 20⟩

/-- CONFIG.fixedCamera.target (src/main.js line 12). -/
def fixedCameraTarget : Vec3 := ⟨0, 0, 0⟩

/-- The state the scroll handler writes (src/main.js lines 453-484):
progress, section, blend, the fixed camera targets, the camera fov (reset to
the configured base on every scroll event, line 470), and the aircraft target
pose. -/
structure ScrollOut where
  scrollProgress : ℚ
  currentSection : ℤ
  blendValue : ℚ
  camPos : Vec3
  camTarget : Vec3
  camFov : ℚ
  aircraftTarget : Keyframe
deriving DecidableEq, Repr

/-- onScroll (src/main.js lines 453-488) over exact rationals, for a nonzero
scrollable range (the zero-range NaN behaviour is modelled separately over
`JSNum`).  Inputs: window.scrollY, document scrollHeight, window innerHeight. -/
def onScrollQ (scrollY scrollH innerH : ℚ) : ScrollOut :=
  let progress := scrollY / (scrollH - innerH)
  { scrollProgress := progress
    currentSection := sectionIndex progress
    blendValue := blend progress
    camPos := fixedCameraPosition
    camTarget := fixedCameraTarget
    camFov := fixedCameraFov
    aircraftTarget := targetPose progress }

/-- One aircraft update of the render loop, src/main.js lines 530-562.
Arguments: the math environment, the two mode flags, the smoothed gesture
signals (handPosition, handRotation, handZoom), the scroll-derived target
keyframe (targetAircraftPosition / targetAircraftRotation), the global
scrollProgress, the elapsed clock time, and the current pose. -/
def animateAircraft (env : MathEnv) (handControlEnabled isHandDetected : Bool)
    (handPos handRot : Vec3) (handZoom : ℚ) (tgt : Keyframe)
    (scrollProg elapsed : ℚ) (cur : Pose) : Pose :=
  let next : Pose :=
    if handControlEnabled && isHandDetected then
      let hx := (1/2 - handPos.x) * 10
      let hy := (1/2 - handPos.y) * 6
      let hz := handPos.z * (-5)
      let pos := lerpToward cur.position ⟨hx, hy, hz⟩ (8/100)
      let rx := cur.rotation.x + (handRot.x * (8/10) - cur.rotation.x) * (6/100)
      let ry := cur.rotation.y + (handRot.y * (15/10) - cur.rotation.y) * (6/100)
      let rz := cur.rotation.z + (handRot.z * (6/10) - cur.rotation.z) * (6/100)
      let targetFov := 50 / handZoom
      let fov := cur.fov + (targetFov - cur.fov) * (1/10)
      ⟨pos, ⟨rx, ry, rz⟩, fov⟩
    else
      let tp : Vec3 :=
        ⟨tgt.position.x + env.sin (elapsed * (5/10) + scrollProg * env.pi * 2) * (5/10),
         tgt.position.y + env.cos (elapsed * (7/10) + scrollProg * env.pi) * (3/10),
         tgt.position.z + env.sin (elapsed * (4/10) + scrollProg * env.pi * (15/10)) * (4/10)⟩
      let pos := lerpToward cur.position tp (4/100)
      let rotY := tgt.rotation.y + env.sin (elapsed * (3/10)) * (1/10)
      let rx := cur.rotation.x +
        (tgt.rotation.x + env.cos (elapsed * (6/10)) * (3/100) - cur.rotation.x) * (4/100)
      let ry := cur.rotation.y + (rotY - cur.rotation.y) * (4/100)
      let rz := cur.rotation.z +
        (tgt.rotation.z + env.sin (elapsed * (8/10)) * (5/100) - cur.rotation.z) * (4/100)
      ⟨pos, ⟨rx, ry, rz⟩, cur.fov⟩
  { next with position :=
      { next.position with
          y := next.position.y + env.sin (elapsed * (8/10)) * (3/1000) } }

end Sukhoi3d

namespace Sukhoi3d

/-- C3: per frame, the gesture-derived target drives the aircraft iff
`handControlEnabled && isHandDetected`; in that case the frame's output is
independent of the scroll-derived target and progress, and in every other
case it is independent of the gesture signals. -/
theorem claim_C3 (env : MathEnv) (hc hd : Bool)
    (hp hr hp2 hr2 : Vec3) (hz hz2 : ℚ)
    (t1 t2 : Keyframe) (sp1 sp2 elapsed : ℚ) (cur : Pose) :
    ((hc && hd) = true ↔ hc = true ∧ hd = true) ∧
    ((hc && hd) = true →
      animateAircraft env hc hd hp hr hz t1 sp1 elapsed cur =
        animateAircraft env hc hd hp hr hz t2 sp2 elapsed cur) ∧
    ((hc && hd) = false →
      animateAircraft env hc hd hp hr hz t1 sp1 elapsed cur =
        animateAircraft env hc hd hp2 hr2 hz2 t1 sp1 elapsed cur) := by
  refine ⟨(Bool.and_eq_true hc hd).to_iff, fun h => ?_, fun h => ?_⟩
  · simp only [animateAircraft, h, if_true]
  · simp only [animateAircraft, h, Bool.false_eq_true, if_false]

/-- Concrete math environment for witnesses: every transcendental primitive
returns 0. -/
def env0 : MathEnv := ⟨fun _ => 0, fun _ => 0, 0, fun _ _ => 0⟩

/-- Concrete pose whose camera fov sits at the gesture-derived value
50 / handZoom for handZoom = 1. -/
def pose0 : Pose := ⟨⟨0, 0, 0⟩, ⟨0, 0, 0⟩, 50⟩

/-- C3 witness: with gesture mode on and a hand detected, two different
scroll targets produce the same frame output. -/
theorem claim_C3_witness :
    animateAircraft env0 true true ⟨0, 0, 0⟩ ⟨0, 0, 0⟩ 1 (kf 0) 0 0 pose0 =
      animateAircraft env0 true true ⟨0, 0, 0⟩ ⟨0, 0, 0⟩ 1 (kf 3) (1/2) 0 pose0 :=
  (claim_C3 env0 true true ⟨0, 0, 0⟩ ⟨0, 0, 0⟩ ⟨0, 0, 0⟩ ⟨0, 0, 0⟩ 1 1
    (kf 0) (kf 3) 0 (1/2) 0 pose0).2.1 rfl

/-- C7 counterexample: with gesture mode enabled, no hand detected this tick,
and the camera fov currently at the gesture-derived value 50/handZoom = 50,
the render frame leaves the fov at 50 — it does not revert toward the
configured base fov 35, contradicting the claim. -/
theorem claim_C7_counterexample :
    (animateAircraft env0 true false ⟨0, 0, 0⟩ ⟨0, 0, 0⟩ 1 (kf 0) 0 0 pose0).fov
        = 50 / 1 ∧
    (animateAircraft env0 true false ⟨0, 0, 0⟩ ⟨0, 0, 0⟩ 1 (kf 0) 0 0 pose0).fov
        ≠ fixedCameraFov ∧
    fixedCameraFov = 35 := by
  norm_num [animateAircraft, env0, pose0, fixedCameraFov]

/-- C7 (amended): when gesture mode is enabled but no hand is detected this
tick, the frame behaves exactly as pure scroll mode (independently of all
gesture signals), the render loop leaves the camera fov unchanged, and the
fov is reset to the configured base value only by the scroll handler when the
next scroll event runs. -/
theorem claim_C7 (env : MathEnv) (hp hr hp2 hr2 : Vec3) (hz hz2 : ℚ)
    (tgt : Keyframe) (sp elapsed : ℚ) (cur : Pose) (y sh ih : ℚ) :
    animateAircraft env true false hp hr hz tgt sp elapsed cur =
      animateAircraft env false false hp2 hr2 hz2 tgt sp elapsed cur ∧
    (animateAircraft env true false hp hr hz tgt sp elapsed cur).fov = cur.fov ∧
    (onScrollQ y sh ih).camFov = fixedCameraFov := by
  refine ⟨?_, ?_, rfl⟩
  · simp only [animateAircraft, Bool.and_false, Bool.false_and,
      Bool.false_eq_true, if_false]
  · simp only [animateAircraft, Bool.and_false, Bool.false_eq_true, if_false]

end Sukhoi3d

namespace Sukhoi3d

/-- The hand landmarks the gesture filter reads (src/main.js lines 404-405):
lm[8] indexTip, lm[4] thumbTip, lm[0] wrist, lm[9] palm, lm[20] pinky,
lm[12] middleTip, lm[16] ringTip, each a normalized image-space point. -/
structure Landmarks where
  indexTip : Vec3
  thumbTip : Vec3
  wrist : Vec3
  palm : Vec3
  pinky : Vec3
  middleTip : Vec3
  ringTip : Vec3

/-- The smoothed gesture signals (src/main.js lines 72-74): handPosition,
handRotation, handZoom. -/
structure GestureState where
  posX : ℚ
  posY : ℚ
  posZ : ℚ
  rotX : ℚ
  rotY : ℚ
  rotZ : ℚ
  zoom : ℚ
deriving DecidableEq, Repr

/-- Initial gesture signals (src/main.js lines 72-74): position (0.5, 0.5, 0),
rotation (0, 0, 0), zoom 1.0. -/
def initialGestureState : GestureState := ⟨1/2, 1/2, 0, 0, 0, 0, 1⟩

/-- Average fingertip-to-palm distance (src/main.js lines 409-414), with
Math.hypot taken from the environment. -/
def avgFingerDist (env : MathEnv) (lm : Landmarks) : ℚ :=
  (env.hypot (lm.indexTip.x - lm.palm.x) (lm.indexTip.y - lm.palm.y) +
   env.hypot (lm.middleTip.x - lm.palm.x) (lm.middleTip.y - lm.palm.y) +
   env.hypot (lm.ringTip.x - lm.palm.x) (lm.ringTip.y - lm.palm.y) +
   env.hypot (lm.pinky.x - lm.palm.x) (lm.pinky.y - lm.palm.y)) / 4

/-- Normalized hand openness (src/main.js line 418):
`Math.max(0, Math.min(1, (avgFingerDist - 0.08) / 0.15))`. -/
def normalizedOpen (d : ℚ) : ℚ := max 0 (min 1 ((d - 8/100) / (15/100)))

/-- Target zoom from openness (src/main.js line 419): `0.5 + normalized * 1.5`. -/
def targetZoom (d : ℚ) : ℚ := 1/2 + normalizedOpen d * (15/10)

/-- One hand-detected update of the gesture signal filter
(src/main.js lines 418-427): exponential smoothing of zoom (α = 0.1) toward
the openness-derived target and of position/rotation (α = 0.15) toward the
landmark-derived targets. -/
def gestureUpdate (env : MathEnv) (lm : Landmarks) (s : GestureState) :
    GestureState :=
  let d := avgFingerDist env lm
  let tz := targetZoom d
  { zoom := s.zoom + (tz - s.zoom) * (1/10)
    posX := s.posX + (lm.indexTip.x - s.posX) * (15/100)
    posY := s.posY + (lm.indexTip.y - s.posY) * (15/100)
    posZ := s.posZ + (lm.indexTip.z - s.posZ) * (15/100)
    rotX := s.rotX + ((lm.palm.y - lm.wrist.y) * 2 - s.rotX) * (15/100)
    rotY := s.rotY + ((lm.indexTip.x - 1/2) * 2 - s.rotY) * (15/100)
    rotZ := s.rotZ + ((lm.thumbTip.y - lm.pinky.y) * 2 - s.rotZ) * (15/100) }

/-- The fixed point of `gestureUpdate` for a constant landmark input: each
signal's derived raw target. -/
def gestureTargets (env : MathEnv) (lm : Landmarks) : GestureState :=
  { posX := lm.indexTip.x
    posY := lm.indexTip.y
    posZ := lm.indexTip.z
    rotX := (lm.palm.y - lm.wrist.y) * 2
    rotY := (lm.indexTip.x - 1/2) * 2
    rotZ := (lm.thumbTip.y - lm.pinky.y) * 2
    zoom := targetZoom (avgFingerDist env lm) }

/-- C6 helpers: the normalized openness is clamped into [0,1] and hence the
target zoom into [1/2, 2]. -/
theorem normalizedOpen_nonneg (d : ℚ) : 0 ≤ normalizedOpen d := le_max_left 0 _

theorem normalizedOpen_le_one (d : ℚ) : normalizedOpen d ≤ 1 :=
  max_le (by norm_num) (min_le_left 1 _)

theorem targetZoom_ge (d : ℚ) : 1/2 ≤ targetZoom d := by
  have := normalizedOpen_nonneg d
  unfold targetZoom
  nlinarith

theorem targetZoom_le (d : ℚ) : targetZoom d ≤ 2 := by
  have := normalizedOpen_le_one d
  unfold targetZoom
  nlinarith

end Sukhoi3d

namespace Sukhoi3d

/-- C6: for every average fingertip-to-palm distance d, the normalized
openness equals clamp((d - 0.08)/0.15, 0, 1), the target zoom equals
0.5 + normalized · 1.5 and always lies in [0.5, 2]; d = 0.08 yields
openness 0 and zoom 0.5, and d = 0.23 yields openness 1 and zoom 2. -/
theorem claim_C6 (d : ℚ) :
    normalizedOpen d = max 0 (min 1 ((d - 8/100) / (15/100))) ∧
    0 ≤ normalizedOpen d ∧ normalizedOpen d ≤ 1 ∧
    targetZoom d = 1/2 + normalizedOpen d * (15/10) ∧
    1/2 ≤ targetZoom d ∧ targetZoom d ≤ 2 ∧
    (d = 8/100 → normalizedOpen d = 0 ∧ targetZoom d = 1/2) ∧
    (d = 23/100 → normalizedOpen d = 1 ∧ targetZoom d = 2) := by
  refine ⟨rfl, normalizedOpen_nonneg d, normalizedOpen_le_one d, rfl,
    targetZoom_ge d, targetZoom_le d, ?_, ?_⟩
  · rintro rfl
    norm_num [normalizedOpen, targetZoom]
  · rintro rfl
    norm_num [normalizedOpen, targetZoom]

/-- C6 witness: the two scenario inputs d = 0.08 and d = 0.23. -/
theorem claim_C6_witness :
    (normalizedOpen (8/100) = 0 ∧ targetZoom (8/100) = 1/2) ∧
    (normalizedOpen (23/100) = 1 ∧ targetZoom (23/100) = 2) :=
  ⟨(claim_C6 (8/100)).2.2.2.2.2.2.1 rfl,
   (claim_C6 (23/100)).2.2.2.2.2.2.2 rfl⟩

/-- Componentwise unfoldings of one gesture-filter update. -/
theorem gestureUpdate_posX (env : MathEnv) (lm : Landmarks) (s : GestureState) :
    (gestureUpdate env lm s).posX = s.posX + (lm.indexTip.x - s.posX) * (15/100) := rfl

theorem gestureUpdate_posY (env : MathEnv) (lm : Landmarks) (s : GestureState) :
    (gestureUpdate env lm s).posY = s.posY + (lm.indexTip.y - s.posY) * (15/100) := rfl

theorem gestureUpdate_posZ (env : MathEnv) (lm : Landmarks) (s : GestureState) :
    (gestureUpdate env lm s).posZ = s.posZ + (lm.indexTip.z - s.posZ) * (15/100) := rfl

theorem gestureUpdate_rotX (env : MathEnv) (lm : Landmarks) (s : GestureState) :
    (gestureUpdate env lm s).rotX
      = s.rotX + ((lm.palm.y - lm.wrist.y) * 2 - s.rotX) * (15/100) := rfl

theorem gestureUpdate_rotY (env : MathEnv) (lm : Landmarks) (s : GestureState) :
    (gestureUpdate env lm s).rotY
      = s.rotY + ((lm.indexTip.x - 1/2) * 2 - s.rotY) * (15/100) := rfl

theorem gestureUpdate_rotZ (env : MathEnv) (lm : Landmarks) (s : GestureState) :
    (gestureUpdate env lm s).rotZ
      = s.rotZ + ((lm.thumbTip.y - lm.pinky.y) * 2 - s.rotZ) * (15/100) := rfl

theorem gestureUpdate_zoom (env : MathEnv) (lm : Landmarks) (s : GestureState) :
    (gestureUpdate env lm s).zoom
      = s.zoom + (targetZoom (avgFingerDist env lm) - s.zoom) * (1/10) := rfl

/-- C5: each filter update is exponential smoothing at α = 0.15 for the three
position and three rotation signals and α = 0.1 for zoom, so under a constant
landmark input repeated k ticks every signal's offset from its derived target
shrinks by the exact factor (1-α)^k. -/
theorem claim_C5 (env : MathEnv) (lm : Landmarks) (s : GestureState) (k : ℕ) :
    ((gestureUpdate env lm)^[k] s).posX - (gestureTargets env lm).posX
        = (1 - 15/100)^k * (s.posX - (gestureTargets env lm).posX) ∧
    ((gestureUpdate env lm)^[k] s).posY - (gestureTargets env lm).posY
        = (1 - 15/100)^k * (s.posY - (gestureTargets env lm).posY) ∧
    ((gestureUpdate env lm)^[k] s).posZ - (gestureTargets env lm).posZ
        = (1 - 15/100)^k * (s.posZ - (gestureTargets env lm).posZ) ∧
    ((gestureUpdate env lm)^[k] s).rotX - (gestureTargets env lm).rotX
        = (1 - 15/100)^k * (s.rotX - (gestureTargets env lm).rotX) ∧
    ((gestureUpdate env lm)^[k] s).rotY - (gestureTargets env lm).rotY
        = (1 - 15/100)^k * (s.rotY - (gestureTargets env lm).rotY) ∧
    ((gestureUpdate env lm)^[k] s).rotZ - (gestureTargets env lm).rotZ
        = (1 - 15/100)^k * (s.rotZ - (gestureTargets env lm).rotZ) ∧
    ((gestureUpdate env lm)^[k] s).zoom - (gestureTargets env lm).zoom
        = (1 - 1/10)^k * (s.zoom - (gestureTargets env lm).zoom) := by
  induction k with
  | zero => simp
  | succ n ih =>
    obtain ⟨h1, h2, h3, h4, h5, h6, h7⟩ := ih
    simp only [Function.iterate_succ_apply']
    refine ⟨?_, ?_, ?_, ?_, ?_, ?_, ?_⟩ <;>
      simp only [gestureUpdate_posX, gestureUpdate_posY, gestureUpdate_posZ,
        gestureUpdate_rotX, gestureUpdate_rotY, gestureUpdate_rotZ,
        gestureUpdate_zoom, gestureTargets] at h1 h2 h3 h4 h5 h6 h7 ⊢
    · linear_combination (1 - (15:ℚ)/100) * h1
    · linear_combination (1 - (15:ℚ)/100) * h2
    · linear_combination (1 - (15:ℚ)/100) * h3
    · linear_combination (1 - (15:ℚ)/100) * h4
    · linear_combination (1 - (15:ℚ)/100) * h5
    · linear_combination (1 - (15:ℚ)/100) * h6
    · linear_combination (1 - (1:ℚ)/10) * h7

end Sukhoi3d

namespace Sukhoi3d

/-- C10 helper: one hand-detected update keeps the zoom signal in [1/2, 2],
because the new value is a convex combination of the old one and a target in
[1/2, 2]. -/
theorem zoom_step_mem (env : MathEnv) (lm : Landmarks) (s : GestureState)
    (h0 : 1/2 ≤ s.zoom) (h1 : s.zoom ≤ 2) :
    1/2 ≤ (gestureUpdate env lm s).zoom ∧ (gestureUpdate env lm s).zoom ≤ 2 := by
  rw [gestureUpdate_zoom]
  have hg := targetZoom_ge (avgFingerDist env lm)
  have hl := targetZoom_le (avgFingerDist env lm)
  constructor <;> nlinarith

/-- C10 helper: folding any sequence of hand-detected updates from a zoom
value in [1/2, 2] stays in [1/2, 2]. -/
theorem zoom_fold_mem (env : MathEnv) (lms : List Landmarks) :
    ∀ s : GestureState, 1/2 ≤ s.zoom → s.zoom ≤ 2 →
      1/2 ≤ (lms.foldl (fun st lm => gestureUpdate env lm st) s).zoom ∧
        (lms.foldl (fun st lm => gestureUpdate env lm st) s).zoom ≤ 2 := by
  induction lms with
  | nil => exact fun s h0 h1 => ⟨h0, h1⟩
  | cons lm rest ih =>
    intro s h0 h1
    have := zoom_step_mem env lm s h0 h1
    simpa using ih (gestureUpdate env lm s) this.1 this.2

/-- C10: starting from the initial handZoom = 1.0, any sequence of detection
ticks keeps handZoom within [0.5, 2.0]; hence the gesture-mode target fov
50 / handZoom is well defined (handZoom ≠ 0) and lies in [25, 100]. -/
theorem claim_C10 (env : MathEnv) (lms : List Landmarks) :
    1/2 ≤ (lms.foldl (fun st lm => gestureUpdate env lm st) initialGestureState).zoom ∧
    (lms.foldl (fun st lm => gestureUpdate env lm st) initialGestureState).zoom ≤ 2 ∧
    (lms.foldl (fun st lm => gestureUpdate env lm st) initialGestureState).zoom ≠ 0 ∧
    25 ≤ 50 / (lms.foldl (fun st lm => gestureUpdate env lm st) initialGestureState).zoom ∧
    50 / (lms.foldl (fun st lm => gestureUpdate env lm st) initialGestureState).zoom ≤ 100 := by
  obtain ⟨h0, h1⟩ := zoom_fold_mem env lms initialGestureState
    (by norm_num [initialGestureState]) (by norm_num [initialGestureState])
  have hpos : 0 < (lms.foldl (fun st lm => gestureUpdate env lm st)
      initialGestureState).zoom := by linarith
  refine ⟨h0, h1, ne_of_gt hpos, ?_, ?_⟩
  · rw [le_div_iff₀ hpos]; linarith
  · rw [div_le_iff₀ hpos]; linarith

end Sukhoi3d

namespace Sukhoi3d

/-- Outcome of the camera-acquisition step in toggleHandControl: either a
live stream or a failure (permission denied / device error), modelling the
awaited getUserMedia call at src/main.js line 329. -/
inductive CameraResult where
  | ok : CameraResult
  | permissionDenied : CameraResult
deriving DecidableEq, Repr

/-- Button labels used by toggleHandControl (src/main.js lines 327, 339,
346, 355). -/
inductive BtnLabel where
  | handControl : BtnLabel
  | loading : BtnLabel
  | stopControl : BtnLabel
deriving DecidableEq, Repr

/-- The UI/control state toggleHandControl manipulates: the mode flag, the
button label, whether the alert fired, whether the detection loop was
started, and whether the video/canvas overlays are shown. -/
structure ToggleState where
  handControlEnabled : Bool
  btnLabel : BtnLabel
  alerted : Bool
  detectLoopStarted : Bool
  overlaysVisible : Bool
deriving DecidableEq, Repr

/-- toggleHandControl (src/main.js lines 318-359): on the enabling path the
button shows LOADING, camera acquisition is awaited once; on success the mode
flag is set, overlays shown, the label becomes STOP CONTROL and the detection
loop starts; on failure the catch block alerts once and restores the label,
leaving the mode flag and everything else untouched.  On the disabling path
the flag is cleared, the stream stopped, overlays hidden and the label
restored. -/
def toggleHandControl (st : ToggleState) (cam : CameraResult) : ToggleState :=
  if st.handControlEnabled = false then
    match cam with
    | CameraResult.ok =>
        { st with handControlEnabled := true
                  btnLabel := BtnLabel.stopControl
                  overlaysVisible := true
                  detectLoopStarted := true }
    | CameraResult.permissionDenied =>
        { st with alerted := true
                  btnLabel := BtnLabel.handControl }
  else
    { st with handControlEnabled := false
              overlaysVisible := false
              detectLoopStarted := false
              btnLabel := BtnLabel.handControl }

/-- C9: if camera acquisition fails while enabling gesture mode, the failure
surfaces as a one-shot alert, the button label is restored to HAND CONTROL,
handControlEnabled remains false, and no detection loop is started — the
control-mode state is unchanged on error. -/
theorem claim_C9 (st : ToggleState) (hcEnabled : st.handControlEnabled = false)
    (hLoop : st.detectLoopStarted = false) :
    (toggleHandControl st CameraResult.permissionDenied).alerted = true ∧
    (toggleHandControl st CameraResult.permissionDenied).btnLabel
        = BtnLabel.handControl ∧
    (toggleHandControl st CameraResult.permissionDenied).handControlEnabled
        = false ∧
    (toggleHandControl st CameraResult.permissionDenied).detectLoopStarted
        = false ∧
    (toggleHandControl st CameraResult.permissionDenied).handControlEnabled
        = st.handControlEnabled := by
  simp [toggleHandControl, hcEnabled, hLoop]

/-- C9 witness: the claim at the concrete idle state (mode off, label HAND
CONTROL, nothing running). -/
theorem claim_C9_witness :
    (⟨false, BtnLabel.handControl, false, false, false⟩ :
        ToggleState).handControlEnabled = false ∧
    ((toggleHandControl ⟨false, BtnLabel.handControl, false, false, false⟩
        CameraResult.permissionDenied).alerted = true ∧
      (toggleHandControl ⟨false, BtnLabel.handControl, false, false, false⟩
        CameraResult.permissionDenied).btnLabel = BtnLabel.handControl ∧
      (toggleHandControl ⟨false, BtnLabel.handControl, false, false, false⟩
        CameraResult.permissionDenied).handControlEnabled = false ∧
      (toggleHandControl ⟨false, BtnLabel.handControl, false, false, false⟩
        CameraResult.permissionDenied).detectLoopStarted = false ∧
      (toggleHandControl ⟨false, BtnLabel.handControl, false, false, false⟩
        CameraResult.permissionDenied).handControlEnabled
        = (⟨false, BtnLabel.handControl, false, false, false⟩ :
            ToggleState).handControlEnabled) :=
  ⟨rfl, claim_C9 ⟨false, BtnLabel.handControl, false, false, false⟩ rfl rfl⟩

end Sukhoi3d

namespace Sukhoi3d

/-- JavaScript double values restricted to the exactly-representable cases
this code path can produce: NaN, the two infinities, and finite values
(taken exact, as rationals). -/
inductive JSNum where
  | nan : JSNum
  | posInf : JSNum
  | negInf : JSNum
  | num : ℚ → JSNum
deriving DecidableEq, Repr

namespace JSNum

/-- IEEE-754 / JavaScript addition on the modelled values. -/
def add : JSNum → JSNum → JSNum
  | nan, _ => nan
  | _, nan => nan
  | posInf, negInf => nan
  | negInf, posInf => nan
  | posInf, _ => posInf
  | _, posInf => posInf
  | negInf, _ => negInf
  | _, negInf => negInf
  | num a, num b => num (a + b)

/-- IEEE-754 / JavaScript subtraction on the modelled values. -/
def sub : JSNum → JSNum → JSNum
  | nan, _ => nan
  | _, nan => nan
  | posInf, posInf => nan
  | negInf, negInf => nan
  | posInf, _ => posInf
  | negInf, _ => negInf
  | num _, posInf => negInf
  | num _, negInf => posInf
  | num a, num b => num (a - b)

/-- IEEE-754 / JavaScript multiplication on the modelled values
(infinity times zero is NaN). -/
def mul : JSNum → JSNum → JSNum
  | nan, _ => nan
  | _, nan => nan
  | posInf, posInf => posInf
  | posInf, negInf => negInf
  | negInf, posInf => negInf
  | negInf, negInf => posInf
  | posInf, num b => if b = 0 then nan else if 0 < b then posInf else negInf
  | negInf, num b => if b = 0 then nan else if 0 < b then negInf else posInf
  | num a, posInf => if a = 0 then nan else if 0 < a then posInf else negInf
  | num a, negInf => if a = 0 then nan else if 0 < a then negInf else posInf
  | num a, num b => num (a * b)

/-- IEEE-754 / JavaScript division on the modelled values: 0/0 is NaN,
x/0 for x ≠ 0 is a signed infinity (the denominator 0 taken as +0),
finite/infinite is 0, infinite/infinite is NaN. -/
def div : JSNum → JSNum → JSNum
  | nan, _ => nan
  | _, nan => nan
  | posInf, posInf => nan
  | posInf, negInf => nan
  | negInf, posInf => nan
  | negInf, negInf => nan
  | posInf, num b => if 0 ≤ b then posInf else negInf
  | negInf, num b => if 0 ≤ b then negInf else posInf
  | num _, posInf => num 0
  | num _, negInf => num 0
  | num a, num b =>
      if b = 0 then (if a = 0 then nan else if 0 < a then posInf else negInf)
      else num (a / b)

/-- Math.floor on the modelled values: NaN and the infinities pass through. -/
def floorJS : JSNum → JSNum
  | nan => nan
  | posInf => posInf
  | negInf => negInf
  | num a => num (⌊a⌋ : ℤ)

/-- The JavaScript `<` comparison: any comparison involving NaN is false. -/
def ltJS : JSNum → JSNum → Bool
  | nan, _ => false
  | _, nan => false
  | negInf, negInf => false
  | negInf, _ => true
  | posInf, _ => false
  | num _, posInf => true
  | num _, negInf => false
  | num a, num b => decide (a < b)

end JSNum

/-- A 3-vector of JavaScript values. -/
structure Vec3JS where
  x : JSNum
  y : JSNum
  z : JSNum
deriving DecidableEq, Repr

/-- Injection of an exact configured vector into JavaScript values. -/
def toJS (v : Vec3) : Vec3JS := ⟨JSNum.num v.x, JSNum.num v.y, JSNum.num v.z⟩

/-- Math.pow(x, 3) on the modelled values, written as x·x·x (they agree on
NaN and infinities). -/
def powThree (x : JSNum) : JSNum := JSNum.mul (JSNum.mul x x) x

/-- The ease arrow of src/main.js line 462 under JavaScript number
semantics. -/
def easeJS (t : JSNum) : JSNum :=
  if JSNum.ltJS t (JSNum.num (1/2)) then
    JSNum.mul (JSNum.mul (JSNum.mul (JSNum.num 4) t) t) t
  else
    JSNum.sub (JSNum.num 1)
      (JSNum.div (powThree (JSNum.add (JSNum.mul (JSNum.num (-2)) t) (JSNum.num 2)))
        (JSNum.num 2))

/-- lerpVectors componentwise under JavaScript number semantics, between two
exactly configured keyframe vectors. -/
def lerpVecJS (a b : Vec3) (e : JSNum) : Vec3JS :=
  ⟨JSNum.add (JSNum.num a.x) (JSNum.mul (JSNum.sub (JSNum.num b.x) (JSNum.num a.x)) e),
   JSNum.add (JSNum.num a.y) (JSNum.mul (JSNum.sub (JSNum.num b.y) (JSNum.num a.y)) e),
   JSNum.add (JSNum.num a.z) (JSNum.mul (JSNum.sub (JSNum.num b.z) (JSNum.num a.z)) e)⟩

/-- Array lookup `CONFIG.aircraftPositions[i]` under JavaScript semantics:
defined only when the index is a finite integer in [0, 7); any other index
yields `undefined` and the subsequent property access throws. -/
def kfAtJS : JSNum → Option Keyframe
  | JSNum.num c =>
      if 0 ≤ c ∧ c < 7 ∧ c.den = 1 then some (kf c.num.toNat) else none
  | _ => none

/-- The state the scroll handler writes, under JavaScript number semantics. -/
structure ScrollOutJS where
  scrollProgress : JSNum
  currentSection : JSNum
  blendValue : JSNum
  targetPos : Vec3JS
  targetRot : Vec3JS
deriving DecidableEq, Repr

/-- onScroll (src/main.js lines 453-483) under JavaScript number semantics:
progress = scrollY / (scrollHeight - innerHeight) with no guard, then
section/blend/ease/lerp as in the source; `none` models the TypeError thrown
when the NaN-or-out-of-range index reaches the keyframe array inside the
interpolation branch. -/
def onScrollJS (scrollY scrollH innerH : JSNum) : Option ScrollOutJS :=
  let docHeight := JSNum.sub scrollH innerH
  let progress := JSNum.div scrollY docHeight
  let secProg := JSNum.mul progress (JSNum.num 6)
  let cs := JSNum.floorJS secProg
  let b := JSNum.sub secProg cs
  if JSNum.ltJS cs (JSNum.num 6) then
    match kfAtJS cs, kfAtJS (JSNum.add cs (JSNum.num 1)) with
    | some c, some n =>
        let e := easeJS b
        some { scrollProgress := progress, currentSection := cs, blendValue := b,
               targetPos := lerpVecJS c.position n.position e,
               targetRot := lerpVecJS c.rotation n.rotation e }
    | _, _ => none
  else
    some { scrollProgress := progress, currentSection := cs, blendValue := b,
           targetPos := toJS (kf 6).position,
           targetRot := toJS (kf 6).rotation }

end Sukhoi3d

namespace Sukhoi3d

/-- C8 counterexample: with zero scrollable range (scrollY 0, scrollHeight =
innerHeight = 800) the unguarded division yields NaN in progress, section
index and blend, but the target transforms do NOT become NaN: the comparison
`NaN < 6` is false, so the handler takes the end-of-scroll branch and copies
keyframe 6 — every target component is a finite number, refuting the claimed
NaN propagation into the target transforms. -/
theorem claim_C8_counterexample :
    onScrollJS (JSNum.num 0) (JSNum.num 800) (JSNum.num 800) =
      some { scrollProgress := JSNum.nan, currentSection := JSNum.nan,
             blendValue := JSNum.nan,
             targetPos := toJS (kf 6).position,
             targetRot := toJS (kf 6).rotation } ∧
    (toJS (kf 6).position).x ≠ JSNum.nan ∧
    (toJS (kf 6).position).y ≠ JSNum.nan ∧
    (toJS (kf 6).position).z ≠ JSNum.nan ∧
    (toJS (kf 6).rotation).x ≠ JSNum.nan ∧
    (toJS (kf 6).rotation).y ≠ JSNum.nan ∧
    (toJS (kf 6).rotation).z ≠ JSNum.nan := by
  refine ⟨?_, ?_, ?_, ?_, ?_, ?_, ?_⟩ <;>
    simp [onScrollJS, JSNum.sub, JSNum.div, JSNum.mul, JSNum.floorJS,
      JSNum.ltJS, toJS, kf, aircraftPositions]

/-- C8 (amended): whenever the scrollable range is zero (scrollHeight equals
innerHeight, hence window.scrollY is 0), the unguarded division makes
progress, section index and blend NaN with no clamp or special case; but the
NaN section-index comparison evaluates false, so the handler sets the target
transforms exactly to the last keyframe rather than to NaN values. -/
theorem claim_C8 (h : ℚ) :
    onScrollJS (JSNum.num 0) (JSNum.num h) (JSNum.num h) =
      some { scrollProgress := JSNum.nan, currentSection := JSNum.nan,
             blendValue := JSNum.nan,
             targetPos := toJS (kf 6).position,
             targetRot := toJS (kf 6).rotation } := by
  simp [onScrollJS, JSNum.sub, JSNum.div, JSNum.mul, JSNum.floorJS, JSNum.ltJS]

end Sukhoi3d
